import Mathlib

/-!
Verification development for the multi-agent financial system
(`financial_system.py`).  The definitions below are a shallow embedding of
the parts of the source the claims speak about: the loan risk scoring rules
(`MortgageAgent._assess_loan_risk`), the mortgage payment calculator
(`MortgageAgent.calculate_mortgage_payment`), the command dispatcher
(`MultiAgentSystem.process_command`), and the task scheduler lifecycle and
tick loop (`TaskScheduler`).  Python floats are modelled as exact rationals,
Python ints as `Int`/`Nat`, exceptions as `Except`, and the wall clock as an
explicit `Nat` parameter.
-/

namespace FinSys

/-- Model of Python `round(x, 2)`: round to a whole number of cents.
Python rounds ties to even, Mathlib `round` rounds ties up; the two agree
everywhere except at exact half-cent values, which none of the inputs
considered here produce. -/
def roundCents (q : ℚ) : ℚ := (round (q * 100) : ℤ) / 100

/-! ## Loan risk scoring (`MortgageAgent._assess_loan_risk`, lines 1093-1179) -/

/-- The fields of the `LoanApplication` dataclass that the risk assessment
reads.  `credit_score` is declared `int` in the source; the monetary fields
and ratios are floats, modelled as rationals. -/
structure LoanApplication where
  applicant_name : String
  loan_amount : ℚ
  loan_type : String
  income : ℚ
  credit_score : ℤ
  debt_to_income : ℚ
  property_value : ℚ
  down_payment : ℚ
deriving DecidableEq

/-- The deterministic part of the dictionary `_assess_loan_risk` returns
(the `ai_recommendation` text and `assessed_at` timestamp come from external
collaborators and are not modelled). -/
structure RiskAssessment where
  risk_score : ℤ
  risk_level : String
  risk_factors : List String
  loan_to_income : ℚ
  loan_to_value : ℚ
deriving DecidableEq

/-- Source line 1097: `loan_amount / income if income > 0 else 999`. -/
def loanToIncome (application : LoanApplication) : ℚ :=
  if application.income > 0 then application.loan_amount / application.income else 999

/-- Source line 1098: `loan_amount / property_value if property_value > 0 else 1`. -/
def loanToValue (application : LoanApplication) : ℚ :=
  if application.property_value > 0 then application.loan_amount / application.property_value
  else 1

/-- Lines 1105-1112: the score delta of the credit-score block (`+= 40`,
`+= 20`, `-= 10`). -/
def creditDelta (c : ℤ) : ℤ :=
  if c < 580 then 40 else if c < 670 then 20 else if c > 740 then -10 else 0

/-- Lines 1105-1112: the factor entries the credit-score block appends. -/
def creditFactor (c : ℤ) : List String :=
  if c < 580 then ["Poor credit score"]
  else if c < 670 then ["Fair credit score"] else []

/-- Lines 1115-1119: the score delta of the debt-to-income block. -/
def dtiDelta (d : ℚ) : ℤ :=
  if d > 43/100 then 30 else if d < 28/100 then -5 else 0

/-- Lines 1115-1119: the factor entries the debt-to-income block appends. -/
def dtiFactor (d : ℚ) : List String :=
  if d > 43/100 then ["High debt-to-income ratio"] else []

/-- Lines 1122-1126: the score delta of the loan-to-value block. -/
def ltvDelta (v : ℚ) : ℤ :=
  if v > 95/100 then 25 else if v < 8/10 then -5 else 0

/-- Lines 1122-1126: the factor entries the loan-to-value block appends. -/
def ltvFactor (v : ℚ) : List String :=
  if v > 95/100 then ["High loan-to-value ratio"] else []

/-- Lines 1129-1133: the score delta of the loan-to-income block. -/
def ltiDelta (l : ℚ) : ℤ :=
  if l > 5 then 20 else if l < 3 then -5 else 0

/-- Lines 1129-1133: the factor entries the loan-to-income block appends. -/
def ltiFactor (l : ℚ) : List String :=
  if l > 5 then ["High loan-to-income ratio"] else []

/-- Shallow embedding of `_assess_loan_risk` (lines 1101-1170).
`risk_score` starts at 0 and the four rule blocks add their deltas in the
order the source evaluates them (credit score, debt-to-income,
loan-to-value, loan-to-income); `risk_factors` accumulates the appended
entries in the same order. -/
def assessLoanRisk (application : LoanApplication) : RiskAssessment :=
  let loan_to_income : ℚ := loanToIncome application
  let loan_to_value : ℚ := loanToValue application
  let risk_score : ℤ :=
    0 + creditDelta application.credit_score + dtiDelta application.debt_to_income +
      ltvDelta loan_to_value + ltiDelta loan_to_income
  let risk_factors : List String :=
    creditFactor application.credit_score ++ dtiFactor application.debt_to_income ++
      ltvFactor loan_to_value ++ ltiFactor loan_to_income
  let risk_level : String :=
    if risk_score ≤ 20 then "low" else if risk_score ≤ 50 then "medium" else "high"
  { risk_score := risk_score
    risk_level := risk_level
    risk_factors := risk_factors
    loan_to_income := roundCents loan_to_income
    loan_to_value := roundCents loan_to_value }

/-! Spec-side definitions, written from the words of the specification, to be
compared against `assessLoanRisk`. -/

/-- Spec wording: credit-score bands `<580: +40`, `580-669: +20`, `>740: -10`. -/
def specCreditDelta (c : ℤ) : ℤ :=
  if c < 580 then 40 else if 580 ≤ c ∧ c ≤ 669 then 20 else if c > 740 then -10 else 0

/-- Spec wording: debt-to-income bands `>0.43: +30`, `<0.28: -5`. -/
def specDtiDelta (d : ℚ) : ℤ :=
  if d > 43/100 then 30 else if d < 28/100 then -5 else 0

/-- Spec wording: loan-to-value bands `>0.95: +25`, `<0.80: -5`. -/
def specLtvDelta (v : ℚ) : ℤ :=
  if v > 95/100 then 25 else if v < 8/10 then -5 else 0

/-- Spec wording: loan-to-income bands `>5: +20`, `<3: -5`. -/
def specLtiDelta (l : ℚ) : ℤ :=
  if l > 5 then 20 else if l < 3 then -5 else 0

/-- Spec wording: start at 0 and add exactly the fixed deltas of each band. -/
def specRiskScore (application : LoanApplication) : ℤ :=
  specCreditDelta application.credit_score + specDtiDelta application.debt_to_income +
    specLtvDelta (loanToValue application) + specLtiDelta (loanToIncome application)

/-- Spec wording: `score <= 20` low, `21..50` medium, `> 50` high. -/
def specLevel (s : ℤ) : String :=
  if s ≤ 20 then "low" else if 21 ≤ s ∧ s ≤ 50 then "medium" else "high"

/-- Spec-claim reading of the `factors` clause: the number of rules that
trigger (one scoring band taken per rule group, including the
score-decreasing bands). -/
def specTriggeredCount (application : LoanApplication) : ℕ :=
  (if application.credit_score < 580 ∨ (580 ≤ application.credit_score ∧
      application.credit_score ≤ 669) ∨ application.credit_score > 740 then 1 else 0) +
  (if application.debt_to_income > 43/100 ∨ application.debt_to_income < 28/100 then 1 else 0) +
  (if loanToValue application > 95/100 ∨ loanToValue application < 8/10 then 1 else 0) +
  (if loanToIncome application > 5 ∨ loanToIncome application < 3 then 1 else 0)

/-- The factor list the code actually accumulates: an entry for each
score-increasing rule that fires, in evaluation order; the score-decreasing
rules contribute no entry. -/
def specFactors (application : LoanApplication) : List String :=
  (if application.credit_score < 580 then ["Poor credit score"]
   else if application.credit_score < 670 then ["Fair credit score"] else []) ++
  (if application.debt_to_income > 43/100 then ["High debt-to-income ratio"] else []) ++
  (if loanToValue application > 95/100 then ["High loan-to-value ratio"] else []) ++
  (if loanToIncome application > 5 then ["High loan-to-income ratio"] else [])

/-- A concrete application in which all four score-decreasing bands fire:
credit 800, debt-to-income 0.20, loan-to-value 0.5, loan-to-income 2. -/
def goodApplication : LoanApplication :=
  { applicant_name := "Alice"
    loan_amount := 100000
    loan_type := "home"
    income := 50000
    credit_score := 800
    debt_to_income := 1/5
    property_value := 200000
    down_payment := 0 }

/-! ## Mortgage payment calculation (`calculate_mortgage_payment`, lines 1181-1226) -/

/-- One row of the first-year amortization schedule (the dictionary appended
at lines 1205-1211). -/
structure AmortEntry where
  month : ℕ
  payment : ℚ
  principal_portion : ℚ
  interest_portion : ℚ
  balance : ℚ
deriving DecidableEq

/-- The dictionary returned by `calculate_mortgage_payment` (the
`calculated_at` timestamp is not modelled). -/
structure MortgageResult where
  principal : ℚ
  interest_rate : ℚ
  loan_term_years : ℕ
  monthly_payment : ℚ
  total_payment : ℚ
  total_interest : ℚ
  first_year_amortization : List AmortEntry
deriving DecidableEq

/-- The unrounded monthly payment, lines 1184-1191: the level-payment
formula when the monthly rate is positive, `principal / num_payments`
otherwise. -/
def rawMonthlyPayment (principal rate : ℚ) (years : ℕ) : ℚ :=
  let monthly_rate : ℚ := rate / 12 / 100
  let num_payments : ℕ := years * 12
  if monthly_rate > 0 then
    principal * (monthly_rate * (1 + monthly_rate) ^ num_payments) /
      ((1 + monthly_rate) ^ num_payments - 1)
  else principal / (num_payments : ℚ)

/-- The schedule loop of lines 1200-1211: `count` months remain, starting at
month number `month` with running `balance`. -/
def amortRows (monthly_rate monthly_payment : ℚ) : ℕ → ℕ → ℚ → List AmortEntry
  | 0, _, _ => []
  | count + 1, month, balance =>
    let interest_payment := balance * monthly_rate
    let principal_payment := monthly_payment - interest_payment
    let balance' := balance - principal_payment
    { month := month
      payment := roundCents monthly_payment
      principal_portion := roundCents principal_payment
      interest_portion := roundCents interest_payment
      balance := roundCents balance' } :: amortRows monthly_rate monthly_payment count (month + 1) balance'

/-- Shallow embedding of `calculate_mortgage_payment` (lines 1181-1222).
All monetary outputs are rounded to cents at the boundary; the internal
computation is exact.  The loop `for month in range(1, min(13, num_payments + 1))`
produces `min 12 num_payments` rows starting at month 1. -/
def calculateMortgagePayment (principal rate : ℚ) (years : ℕ) : MortgageResult :=
  let monthly_rate : ℚ := rate / 12 / 100
  let num_payments : ℕ := years * 12
  let monthly_payment : ℚ := rawMonthlyPayment principal rate years
  let total_payment : ℚ := monthly_payment * (num_payments : ℚ)
  let total_interest : ℚ := total_payment - principal
  { principal := principal
    interest_rate := rate
    loan_term_years := years
    monthly_payment := roundCents monthly_payment
    total_payment := roundCents total_payment
    total_interest := roundCents total_interest
    first_year_amortization := amortRows monthly_rate monthly_payment (min 12 num_payments) 1 principal }

/-! ## Command dispatch (`MultiAgentSystem.process_command`, lines 2118-2282) -/

/-- Model of the Python values carried in a command parameter dictionary
and in handler results. -/
inductive PyValue where
  | vstr : String → PyValue
  | vnum : ℚ → PyValue
  | vbool : Bool → PyValue
  | vnone : PyValue
deriving DecidableEq

/-- A `params` dictionary: an association list of keys to values. -/
abbrev Params := List (String × PyValue)

/-- Python `params[k]`: the value, or a `KeyError` when the key is absent. -/
def getParam (params : Params) (k : String) : Except String PyValue :=
  match params.lookup k with
  | some v => Except.ok v
  | none => Except.error ("KeyError: " ++ k)

/-- Python `params.get(k, d)`: the value, or the default when absent. -/
def getParamD (params : Params) (k : String) (d : PyValue) : PyValue :=
  (params.lookup k).getD d

/-- The agent methods `process_command` can invoke, with the argument shapes
the source passes them.  Each may raise, modelled as `Except`.  The bodies
live in the individual agent classes and are opaque to the dispatcher, so
they are fields here rather than fixed functions. -/
structure Handlers where
  create_transaction : Params → Except String PyValue
  generate_financial_report : Option PyValue → Option PyValue → Except String PyValue
  get_account_balance : PyValue → Except String PyValue
  add_item : Params → Except String PyValue
  update_quantity : PyValue → PyValue → Except String PyValue
  generate_inventory_report : Except String PyValue
  submit_loan_application : Params → Except String PyValue
  calculate_mortgage : PyValue → PyValue → PyValue → Except String PyValue
  analyze_portfolio_performance : PyValue → Except String PyValue
  generate_budget_recommendation : PyValue → PyValue → Except String PyValue
  calculate_retirement_planning :
    PyValue → PyValue → PyValue → PyValue → PyValue → Except String PyValue
  create_policy_quote : Params → Except String PyValue
  process_claim : Params → Except String PyValue
  create_wallet : Except String PyValue
  get_balance : PyValue → Except String PyValue
  get_gas_prices : Except String PyValue
  scrape_stock_prices : PyValue → Except String PyValue
  scrape_crypto_prices : PyValue → Except String PyValue
  answer_question : PyValue → PyValue → Except String PyValue

/-- The three shapes of dictionary `process_command` returns: the
result-and-agent dictionary, the unknown-command dictionary carrying
`available_commands`, and the error dictionary built from `str(e)` in the
`except` clause. -/
inductive CommandOutcome where
  | ok : PyValue → String → CommandOutcome
  | unknown : String → List String → CommandOutcome
  | failure : String → CommandOutcome
deriving DecidableEq

/-- Python `str.lower()` (ASCII model). -/
def pyLower (s : String) : String := String.mk (s.data.map Char.toLower)

/-- Python `str.strip()`: drop whitespace from both ends. -/
def pyStrip (s : String) : String :=
  String.mk (((s.data.dropWhile Char.isWhitespace).reverse.dropWhile Char.isWhitespace).reverse)

/-- Line 2124: `command = command.lower().strip()`. -/
def pyNormalize (s : String) : String := pyStrip (pyLower s)

/-- The `available_commands` list of the unknown-command reply, in the order
it is written at lines 2270-2277. -/
def availableCommands : List String :=
  ["create_transaction", "financial_report", "account_balance",
   "add_inventory", "update_inventory", "inventory_report",
   "submit_loan", "calculate_mortgage", "analyze_portfolio",
   "budget_recommendation", "retirement_planning", "insurance_quote",
   "process_claim", "create_wallet", "get_balance", "gas_prices",
   "scrape_stocks", "scrape_crypto", "ask_question"]

/-- The outer `try`/`except` of `process_command`: a normal handler result
becomes the result-and-agent dictionary, an exception becomes the error
dictionary. -/
def wrap (agent : String) (r : Except String PyValue) : CommandOutcome :=
  match r with
  | Except.ok v => CommandOutcome.ok v agent
  | Except.error e => CommandOutcome.failure e

/-- The branch cascade of `process_command` (lines 2127-2266) as a table:
one entry per `elif` branch on the command name, in source order, mapping the
command name to the `(agent, computation)` the branch runs.  Each body
mirrors the corresponding branch, including the parameter subscripting that
can raise `KeyError`. -/
def commandTable (sys : Handlers) : List (String × (Params → String × Except String PyValue)) :=
  [("create_transaction", fun params => ("accounting", sys.create_transaction params)),
   ("financial_report", fun params =>
     ("accounting",
       sys.generate_financial_report (params.lookup "start_date") (params.lookup "end_date"))),
   ("account_balance", fun params =>
     ("accounting", sys.get_account_balance (getParamD params "account_id" (PyValue.vstr "default")))),
   ("add_inventory", fun params => ("inventory", sys.add_item params)),
   ("update_inventory", fun params =>
     ("inventory", do
       let i ← getParam params "item_id"
       let q ← getParam params "quantity_change"
       sys.update_quantity i q)),
   ("inventory_report", fun _ => ("inventory", sys.generate_inventory_report)),
   ("submit_loan", fun params => ("mortgage", sys.submit_loan_application params)),
   ("calculate_mortgage", fun params =>
     ("mortgage", do
       let p ← getParam params "principal"
       let r ← getParam params "rate"
       let y ← getParam params "years"
       sys.calculate_mortgage p r y)),
   ("analyze_portfolio", fun params =>
     ("finance", do
       let s ← getParam params "symbols"
       sys.analyze_portfolio_performance s)),
   ("budget_recommendation", fun params =>
     ("finance", do
       let i ← getParam params "income"
       let e ← getParam params "expenses"
       sys.generate_budget_recommendation i e)),
   ("retirement_planning", fun params =>
     ("finance", do
       let a ← getParam params "current_age"
       let b ← getParam params "retirement_age"
       let s ← getParam params "current_savings"
       let m ← getParam params "monthly_contribution"
       sys.calculate_retirement_planning a b s m
         (getParamD params "expected_return" (PyValue.vnum 7)))),
   ("insurance_quote", fun params => ("insurance", sys.create_policy_quote params)),
   ("process_claim", fun params => ("insurance", sys.process_claim params)),
   ("create_wallet", fun _ => ("web3", sys.create_wallet)),
   ("get_balance", fun params =>
     ("web3", do
       let a ← getParam params "address"
       sys.get_balance a)),
   ("gas_prices", fun _ => ("web3", sys.get_gas_prices)),
   ("scrape_stocks", fun params =>
     ("scraping", do
       let s ← getParam params "symbols"
       sys.scrape_stock_prices s)),
   ("scrape_crypto", fun params =>
     ("scraping", do
       let s ← getParam params "symbols"
       sys.scrape_crypto_prices s)),
   ("ask_question", fun params =>
     ("ai", do
       let q ← getParam params "question"
       sys.answer_question q (getParamD params "context" (PyValue.vstr ""))))]

/-- The `(agent, computation)` pair that the branch matching a normalized
command name runs, `none` for an unrecognized name (the first matching
branch wins, as in the `elif` cascade of the source). -/
def recognizedRun (sys : Handlers) (c : String) (params : Params) :
    Option (String × Except String PyValue) :=
  ((commandTable sys).lookup c).map (fun f => f params)

/-- The branch cascade of `process_command` after the name has been
normalized (lines 2127-2278): run the recognized branch under the outer
`try`/`except` (`wrap`), or return the unknown-command dictionary of
lines 2268-2278. -/
def dispatchNormalized (sys : Handlers) (c : String) (params : Params) : CommandOutcome :=
  match recognizedRun sys c params with
  | some (a, r) => wrap a r
  | none => CommandOutcome.unknown ("Unknown command: " ++ c) availableCommands

/-- Shallow embedding of `process_command`: normalize the command name
(line 2124), then take the matching branch. -/
def processCommand (sys : Handlers) (command : String) (params : Params) : CommandOutcome :=
  dispatchNormalized sys (pyNormalize command) params

/-- A concrete system whose handlers all succeed with `None`, for closed
instances of the dispatcher theorems. -/
def trivialHandlers : Handlers :=
  { create_transaction := fun _ => Except.ok PyValue.vnone
    generate_financial_report := fun _ _ => Except.ok PyValue.vnone
    get_account_balance := fun _ => Except.ok PyValue.vnone
    add_item := fun _ => Except.ok PyValue.vnone
    update_quantity := fun _ _ => Except.ok PyValue.vnone
    generate_inventory_report := Except.ok PyValue.vnone
    submit_loan_application := fun _ => Except.ok PyValue.vnone
    calculate_mortgage := fun _ _ _ => Except.ok PyValue.vnone
    analyze_portfolio_performance := fun _ => Except.ok PyValue.vnone
    generate_budget_recommendation := fun _ _ => Except.ok PyValue.vnone
    calculate_retirement_planning := fun _ _ _ _ _ => Except.ok PyValue.vnone
    create_policy_quote := fun _ => Except.ok PyValue.vnone
    process_claim := fun _ => Except.ok PyValue.vnone
    create_wallet := Except.ok PyValue.vnone
    get_balance := fun _ => Except.ok PyValue.vnone
    get_gas_prices := Except.ok PyValue.vnone
    scrape_stock_prices := fun _ => Except.ok PyValue.vnone
    scrape_crypto_prices := fun _ => Except.ok PyValue.vnone
    answer_question := fun _ _ => Except.ok PyValue.vnone }

/-- A concrete system whose mortgage calculator raises, for a closed
instance of the exception-conversion theorem. -/
def failingHandlers : Handlers :=
  { trivialHandlers with calculate_mortgage := fun _ _ _ => Except.error "boom" }

/-! ## Scheduler lifecycle (`TaskScheduler.start` / `stop`, lines 1963-1984) -/

/-- The observable state of `TaskScheduler` together with the job table of
the module-level `schedule` registry that `start` writes into:
`running` is the instance flag, `registeredJobs` the job list of the registry,
`threadsSpawned` counts the scheduler threads that have been created. -/
structure SchedulerState where
  running : Bool
  registeredJobs : List String
  threadsSpawned : ℕ
deriving DecidableEq

/-- The five recurring jobs registered by `start` (lines 1968-1972), in
registration order. -/
def scheduledJobIds : List String :=
  ["scrape_market_data", "generate_daily_reports", "check_inventory_alerts",
   "reconcile_accounts", "generate_monthly_reports"]

/-- `TaskScheduler.start` (lines 1963-1977): set `running`, add the five
jobs to the registry (the `schedule` module appends, it does not replace),
and spawn a scheduler thread. -/
def schedulerStart (s : SchedulerState) : SchedulerState :=
  { running := true
    registeredJobs := s.registeredJobs ++ scheduledJobIds
    threadsSpawned := s.threadsSpawned + 1 }

/-- `TaskScheduler.stop` (lines 1979-1984): clear `running` and join the
thread; the job registry is not touched. -/
def schedulerStop (s : SchedulerState) : SchedulerState :=
  { s with running := false }

/-- The state after `TaskScheduler.__init__` (lines 1958-1961), with an
empty registry. -/
def initialSchedulerState : SchedulerState :=
  { running := false, registeredJobs := [], threadsSpawned := 0 }

/-! ## Scheduler tick (`TaskScheduler._run_scheduler`, lines 1986-1993)

The registered callables are the five `TaskScheduler._...` methods, every
one of which wraps its body in `try`/`except` and logs the failure
(lines 1995-2060).  `schedule.run_pending()` runs each due job in turn and
would abort the remainder of the tick if a callable raised; the loop body
of `_run_scheduler` catches such an abort, and the loop then continues with
the next tick. -/

/-- A scheduled job: its id, its interval and next-due time (in ticks), and
the outcome of the body of its target operation, which may raise. -/
structure Job where
  id : String
  interval : ℕ
  nextDue : ℕ
  action : Except String Unit

/-- The registered callable for a job: the job body wrapped in the
`try`/`except` that every `TaskScheduler._...` method contains.  It never
raises; a failing body produces a log line instead. -/
def safeRun (j : Job) : Except String (List String) :=
  Except.ok (match j.action with
    | Except.ok _ => []
    | Except.error e => ["Error in job " ++ j.id ++ ": " ++ e])

/-- `schedule.run_pending()` over the job list: run the registered
callable of each due job in order; a callable that raises aborts the remaining
jobs of the tick (propagating the exception); a job that runs has its
next-due time advanced by its interval from `now`.  Returns the updated
jobs, the ids executed, and the log lines. -/
def runPending (now : ℕ) : List Job → Except String (List Job × List String × List String)
  | [] => Except.ok ([], [], [])
  | j :: rest =>
    if j.nextDue ≤ now then
      match safeRun j with
      | Except.error e => Except.error e
      | Except.ok logs => do
        let (js, ex, ls) ← runPending now rest
        Except.ok ({ j with nextDue := now + j.interval } :: js, j.id :: ex, logs ++ ls)
    else do
      let (js, ex, ls) ← runPending now rest
      Except.ok (j :: js, ex, ls)

/-- What a tick should leave each job as: due jobs advanced by their
interval, others untouched. -/
def advanceIfDue (now : ℕ) (j : Job) : Job :=
  if j.nextDue ≤ now then { j with nextDue := now + j.interval } else j

/-- The ids of the jobs due at `now`, in list order. -/
def dueIds (now : ℕ) (jobs : List Job) : List String :=
  (jobs.filter (fun j => j.nextDue ≤ now)).map Job.id

/-- The log lines a tick produces: one per failing due job. -/
def tickLogs (now : ℕ) (jobs : List Job) : List String :=
  (jobs.filter (fun j => j.nextDue ≤ now)).flatMap (fun j =>
    match j.action with
    | Except.ok _ => []
    | Except.error e => ["Error in job " ++ j.id ++ ": " ++ e])

/-- One iteration of the `while self.running` loop of `_run_scheduler`:
`schedule.run_pending()` inside `try`/`except`; an exception is logged and
the loop continues with the job table unchanged. -/
def runSchedulerTick (now : ℕ) (jobs : List Job) : List Job × List String :=
  match runPending now jobs with
  | Except.ok (js, _, logs) => (js, logs)
  | Except.error e => (jobs, ["Scheduler error: " ++ e])

/-- The scheduler loop over a series of tick instants: each tick is
processed by `runSchedulerTick` and the loop continues with the next. -/
def runSchedulerLoop : List ℕ → List Job → List Job × List String
  | [], jobs => (jobs, [])
  | now :: rest, jobs =>
    let (jobs', logs) := runSchedulerTick now jobs
    let (jobs'', logs') := runSchedulerLoop rest jobs'
    (jobs'', logs ++ logs')

/-- A concrete due job whose body fails, for closed instances of the tick
theorem. -/
def demoFailingJob : Job :=
  { id := "scrape_market_data", interval := 2, nextDue := 0, action := Except.error "http 500" }

/-- A concrete due job whose body succeeds. -/
def demoOkJob : Job :=
  { id := "generate_daily_reports", interval := 3, nextDue := 0, action := Except.ok () }

/-- A concrete two-job table in which the first due job fails. -/
def demoJobs : List Job := [demoFailingJob, demoOkJob]

/-! ## Helper lemmas -/

theorem creditDelta_eq_spec (c : ℤ) : creditDelta c = specCreditDelta c := by
  unfold creditDelta specCreditDelta
  split_ifs <;> omega

theorem assessLoanRisk_score (app : LoanApplication) :
    (assessLoanRisk app).risk_score = specRiskScore app := by
  simp only [assessLoanRisk, specRiskScore, creditDelta_eq_spec, specDtiDelta, specLtvDelta,
    specLtiDelta, dtiDelta, ltvDelta, ltiDelta]
  ring

theorem assessLoanRisk_factors (app : LoanApplication) :
    (assessLoanRisk app).risk_factors = specFactors app := by
  simp only [assessLoanRisk, specFactors, creditFactor, dtiFactor, ltvFactor, ltiFactor]

theorem specLevel_eq_code (s : ℤ) :
    (if s ≤ 20 then "low" else if s ≤ 50 then "medium" else "high") = specLevel s := by
  unfold specLevel
  split_ifs <;> first | rfl | omega

theorem assessLoanRisk_level (app : LoanApplication) :
    (assessLoanRisk app).risk_level = specLevel (specRiskScore app) := by
  have h := assessLoanRisk_score app
  simp only [assessLoanRisk] at h ⊢
  rw [specLevel_eq_code, h]

theorem specCreditDelta_antitone {c₁ c₂ : ℤ} (h : c₁ ≤ c₂) :
    specCreditDelta c₂ ≤ specCreditDelta c₁ := by
  unfold specCreditDelta
  split_ifs <;> omega

theorem mortgage300k_monthly :
    (calculateMortgagePayment 300000 (9/2) 30).monthly_payment = 76003/50 := by
  simp only [calculateMortgagePayment]
  rw [roundCents, rawMonthlyPayment]
  rw [show ((9:ℚ)/2/12/100) = 3/800 by norm_num]
  rw [if_pos (by norm_num : (3:ℚ)/800 > 0)]
  rw [round_eq]
  norm_num

set_option maxHeartbeats 2000000 in
theorem mortgage300k_total :
    (calculateMortgagePayment 300000 (9/2) 30).total_payment = 54722013/100 := by
  simp only [calculateMortgagePayment]
  rw [roundCents, rawMonthlyPayment]
  rw [show ((9:ℚ)/2/12/100) = 3/800 by norm_num]
  rw [if_pos (by norm_num : (3:ℚ)/800 > 0)]
  rw [round_eq]
  norm_num

set_option maxHeartbeats 2000000 in
theorem mortgage300k_interest :
    (calculateMortgagePayment 300000 (9/2) 30).total_interest = 24722013/100 := by
  simp only [calculateMortgagePayment]
  rw [roundCents, rawMonthlyPayment]
  rw [show ((9:ℚ)/2/12/100) = 3/800 by norm_num]
  rw [if_pos (by norm_num : (3:ℚ)/800 > 0)]
  rw [round_eq]
  norm_num

theorem abs_roundCents_sub (x : ℚ) : |x - roundCents x| ≤ 1/200 := by
  unfold roundCents
  have h := abs_sub_round (x * 100)
  rw [show x - (round (x * 100) : ℚ) / 100 = (x * 100 - round (x * 100)) / 100 by ring]
  rw [abs_div]
  rw [show |(100:ℚ)| = 100 by norm_num]
  linarith

theorem roundCents_sub_cents (T : ℚ) (k : ℤ) :
    roundCents (T - (k : ℚ)/100) = roundCents T - (k : ℚ)/100 := by
  unfold roundCents
  rw [show (T - (k:ℚ)/100) * 100 = T * 100 - (k:ℚ) by ring]
  rw [show T * 100 - (k:ℚ) = T * 100 - ((k:ℤ):ℚ) by norm_num]
  rw [round_sub_int]
  push_cast
  ring

theorem rawMonthlyPayment_zero_rate (p r : ℚ) (y : ℕ) (h : r / 12 / 100 = 0) :
    rawMonthlyPayment p r y = p / ((y * 12 : ℕ) : ℚ) := by
  unfold rawMonthlyPayment
  rw [h]
  simp

theorem lookup_eq_none_of_not_mem {α : Type} (l : List (String × α)) (c : String)
    (h : c ∉ l.map Prod.fst) : l.lookup c = none := by
  induction l with
  | nil => rfl
  | cons p rest ih =>
    simp only [List.map_cons, List.mem_cons, not_or] at h
    have hb : (c == p.1) = false := beq_eq_false_iff_ne.mpr h.1
    rw [List.lookup_cons]
    simp only [hb]
    exact ih h.2

theorem commandTable_keys (sys : Handlers) :
    (commandTable sys).map Prod.fst = availableCommands := rfl

theorem recognizedRun_eq_none (sys : Handlers) (c : String) (params : Params)
    (h : c ∉ availableCommands) : recognizedRun sys c params = none := by
  unfold recognizedRun
  rw [lookup_eq_none_of_not_mem (commandTable sys) c (by rw [commandTable_keys]; exact h)]
  rfl

theorem normalize_fixed : ∀ c ∈ availableCommands, pyNormalize c = c := by decide

theorem runPending_eq (now : ℕ) (jobs : List Job) :
    runPending now jobs =
      Except.ok (jobs.map (advanceIfDue now), dueIds now jobs, tickLogs now jobs) := by
  induction jobs with
  | nil => rfl
  | cons j rest ih =>
    by_cases hd : j.nextDue ≤ now
    · simp only [runPending, safeRun, if_pos hd, ih, advanceIfDue, dueIds, tickLogs,
        List.map_cons, List.filter_cons, hd, decide_True, List.flatMap_cons, bind,
        Except.bind]
      cases ha : j.action <;> simp [ha]
    · simp only [runPending, if_neg hd, ih, advanceIfDue, dueIds, tickLogs,
        List.map_cons, List.filter_cons, hd, decide_False, List.flatMap_cons, bind,
        Except.bind]
      simp [if_neg hd]

theorem runSchedulerTick_eq (now : ℕ) (jobs : List Job) :
    runSchedulerTick now jobs = (jobs.map (advanceIfDue now), tickLogs now jobs) := by
  unfold runSchedulerTick
  rw [runPending_eq]

/-! ## Claim theorems -/

/-- C1 (counterexample): the claim that a `factors` entry is accumulated
alongside every triggered rule fails on the code.  At `goodApplication`
(credit 800, debt-to-income 0.20, loan-to-value 0.5, loan-to-income 2) all
four score-decreasing bands trigger, yet `risk_factors` is empty, so the
factors clause of the claim is false. -/
theorem c1_factors_counterexample :
    ¬ ((assessLoanRisk goodApplication).risk_score = specRiskScore goodApplication ∧
       (assessLoanRisk goodApplication).risk_level = specLevel (specRiskScore goodApplication) ∧
       (assessLoanRisk goodApplication).risk_factors.length =
         specTriggeredCount goodApplication) := by
  intro h
  have hl : (assessLoanRisk goodApplication).risk_factors.length = 0 := by
    norm_num [assessLoanRisk, goodApplication, creditFactor, dtiFactor, ltvFactor, ltiFactor,
      loanToIncome, loanToValue]
  have hc : specTriggeredCount goodApplication = 4 := by
    norm_num [specTriggeredCount, goodApplication, loanToIncome, loanToValue]
  rw [hl, hc] at h
  exact absurd h.2.2 (by norm_num)

/-- C1 (amended): for every loan application the risk score starts at 0 and
adds exactly the fixed band deltas in evaluation order, the level is the
total function of the score given in the claim, and a `factors` entry is
accumulated only alongside each triggered score-increasing rule, in that
evaluation order; the score-decreasing rules add no entry. -/
theorem c1_risk_scoring_amended (app : LoanApplication) :
    (assessLoanRisk app).risk_score = specRiskScore app ∧
    (assessLoanRisk app).risk_level = specLevel (specRiskScore app) ∧
    (assessLoanRisk app).risk_factors = specFactors app :=
  ⟨assessLoanRisk_score app, assessLoanRisk_level app, assessLoanRisk_factors app⟩

/-- C2 (counterexample): the returned `total_payment` is not within one cent
of the returned (rounded) `monthly_payment` times the number of payments:
at principal 300000, rate 4.5, 30 years, the difference is 1.47. -/
theorem c2_rounded_payment_counterexample :
    ¬ (|(calculateMortgagePayment 300000 (9/2) 30).monthly_payment * ((30 * 12 : ℕ) : ℚ) -
        (calculateMortgagePayment 300000 (9/2) 30).total_payment| ≤ 1/100) := by
  rw [mortgage300k_monthly, mortgage300k_total]
  rw [show (((30 * 12 : ℕ) : ℚ)) = 360 by norm_num]
  rw [show |(76003:ℚ)/50 * 360 - 54722013/100| = 147/100 by
    rw [show (76003:ℚ)/50 * 360 - 54722013/100 = 147/100 by norm_num]
    rw [abs_of_pos (by norm_num)]]
  norm_num

/-- C2 (amended): for principal > 0, rate >= 0, years > 0: when the monthly
rate is exactly zero the unrounded monthly payment is
`principal / numberOfPayments`; the returned `monthly_payment` and
`total_payment` are the cent-roundings of the unrounded payment and of the
unrounded payment times the number of payments, so `total_payment` is within
half a cent of the unrounded payment times the number of payments; and
`total_interest` equals `total_payment` minus principal whenever the
principal is a whole number of cents. -/
theorem c2_mortgage_payment_amended (p r : ℚ) (y : ℕ)
    (hp : 0 < p) (hr : 0 ≤ r) (hy : 0 < y) :
    (r / 12 / 100 = 0 → rawMonthlyPayment p r y = p / ((y * 12 : ℕ) : ℚ)) ∧
    (calculateMortgagePayment p r y).monthly_payment = roundCents (rawMonthlyPayment p r y) ∧
    (calculateMortgagePayment p r y).total_payment =
      roundCents (rawMonthlyPayment p r y * ((y * 12 : ℕ) : ℚ)) ∧
    |rawMonthlyPayment p r y * ((y * 12 : ℕ) : ℚ) -
        (calculateMortgagePayment p r y).total_payment| ≤ 1/200 ∧
    (∀ k : ℤ, p = (k : ℚ) / 100 →
      (calculateMortgagePayment p r y).total_interest =
        (calculateMortgagePayment p r y).total_payment - p) := by
  refine ⟨fun h => rawMonthlyPayment_zero_rate p r y h, rfl, rfl, ?_, ?_⟩
  · exact abs_roundCents_sub (rawMonthlyPayment p r y * ((y * 12 : ℕ) : ℚ))
  · intro k hk
    show roundCents (rawMonthlyPayment p r y * ((y * 12 : ℕ) : ℚ) - p) =
      roundCents (rawMonthlyPayment p r y * ((y * 12 : ℕ) : ℚ)) - p
    rw [hk]
    exact roundCents_sub_cents _ k

/-- C2 (witness): the amended theorem instantiated at principal 1200,
rate 0, one year. -/
theorem c2_mortgage_payment_witness :
    (0:ℚ) < 1200 ∧ (0:ℚ) ≤ 0 ∧ 0 < 1 ∧
    (((0:ℚ) / 12 / 100 = 0 → rawMonthlyPayment 1200 0 1 = 1200 / ((1 * 12 : ℕ) : ℚ)) ∧
     (calculateMortgagePayment 1200 0 1).monthly_payment =
       roundCents (rawMonthlyPayment 1200 0 1) ∧
     (calculateMortgagePayment 1200 0 1).total_payment =
       roundCents (rawMonthlyPayment 1200 0 1 * ((1 * 12 : ℕ) : ℚ)) ∧
     |rawMonthlyPayment 1200 0 1 * ((1 * 12 : ℕ) : ℚ) -
         (calculateMortgagePayment 1200 0 1).total_payment| ≤ 1/200 ∧
     (∀ k : ℤ, (1200:ℚ) = (k : ℚ) / 100 →
       (calculateMortgagePayment 1200 0 1).total_interest =
         (calculateMortgagePayment 1200 0 1).total_payment - 1200)) :=
  ⟨by norm_num, le_refl 0, Nat.one_pos,
    c2_mortgage_payment_amended 1200 0 1 (by norm_num) (le_refl 0) Nat.one_pos⟩

/-- C3 (counterexample): the unknown-command reply does carry the catalog,
but the catalog is not sorted: its second entry `financial_report` precedes
its third entry `account_balance`. -/
theorem c3_catalog_not_sorted_counterexample :
    processCommand trivialHandlers "nonexistent_command" [] =
      CommandOutcome.unknown "Unknown command: nonexistent_command" availableCommands ∧
    ¬ List.Sorted (fun a b : String => a ≤ b) availableCommands := by
  constructor
  · rfl
  · intro h
    simp only [availableCommands] at h
    obtain ⟨-, h⟩ := List.sorted_cons.mp h
    obtain ⟨hf, -⟩ := List.sorted_cons.mp h
    have hle : ("financial_report" : String) ≤ "account_balance" := hf _ (by simp)
    rw [String.le_iff_toList_le] at hle
    exact absurd hle (by decide)

/-- C3 (amended): every command whose normalized name is outside the
recognized catalog dispatches to the unknown-command error result carrying
the full catalog; the catalog payload is the same fixed list on every call
(stable), in source declaration order rather than sorted. -/
theorem c3_unknown_command_amended (sys : Handlers) (params : Params) (command : String)
    (h : pyNormalize command ∉ availableCommands) :
    processCommand sys command params =
      CommandOutcome.unknown ("Unknown command: " ++ pyNormalize command) availableCommands := by
  unfold processCommand dispatchNormalized
  rw [recognizedRun_eq_none sys (pyNormalize command) params h]

/-- C3 (witness): the amended theorem instantiated at the command name
`nonexistent_command`. -/
theorem c3_unknown_command_witness :
    pyNormalize "nonexistent_command" ∉ availableCommands ∧
    processCommand trivialHandlers "nonexistent_command" [] =
      CommandOutcome.unknown ("Unknown command: " ++ pyNormalize "nonexistent_command")
        availableCommands :=
  ⟨by decide, c3_unknown_command_amended trivialHandlers [] "nonexistent_command" (by decide)⟩

/-- C5: any failure raised by the branch a recognized command dispatches to
(including a `KeyError` from parameter subscripting) is caught and converted
into the error result carrying the failure message; the dispatcher returns
a `CommandOutcome` in every case, so no exception propagates to the caller. -/
theorem c5_handler_exception_conversion (sys : Handlers) (command : String) (params : Params)
    (agent e : String)
    (h : recognizedRun sys (pyNormalize command) params = some (agent, Except.error e)) :
    processCommand sys command params = CommandOutcome.failure e := by
  unfold processCommand dispatchNormalized
  rw [h]
  rfl

/-- C5 (witness): with a mortgage calculator that raises `boom`, dispatching
`calculate_mortgage` returns the error result carrying `boom`. -/
theorem c5_handler_exception_witness :
    recognizedRun failingHandlers (pyNormalize "calculate_mortgage")
        [("principal", PyValue.vnum 1), ("rate", PyValue.vnum 1), ("years", PyValue.vnum 1)] =
      some ("mortgage", Except.error "boom") ∧
    processCommand failingHandlers "calculate_mortgage"
        [("principal", PyValue.vnum 1), ("rate", PyValue.vnum 1), ("years", PyValue.vnum 1)] =
      CommandOutcome.failure "boom" :=
  ⟨rfl, c5_handler_exception_conversion failingHandlers "calculate_mortgage"
    [("principal", PyValue.vnum 1), ("rate", PyValue.vnum 1), ("years", PyValue.vnum 1)]
    "mortgage" "boom" rfl⟩

/-- C6 (counterexample): `start(); start(); stop(); stop()` does not leave
the scheduler state equal to that of a single `start(); stop()`: the second
`start` registers the five recurring jobs a second time and spawns a second
scheduler thread. -/
theorem c6_double_start_counterexample :
    schedulerStop (schedulerStop (schedulerStart (schedulerStart initialSchedulerState))) ≠
      schedulerStop (schedulerStart initialSchedulerState) := by decide

/-- C6 (amended): after `start(); start(); stop(); stop()` the `running`
flag agrees with the single `start(); stop()` terminal state, but the
registered job table holds the five recurring jobs twice instead of once:
the second `start()` is not a no-op. -/
theorem c6_lifecycle_amended :
    (schedulerStop (schedulerStop (schedulerStart (schedulerStart
        initialSchedulerState)))).running =
      (schedulerStop (schedulerStart initialSchedulerState)).running ∧
    (schedulerStop (schedulerStop (schedulerStart (schedulerStart
        initialSchedulerState)))).registeredJobs = scheduledJobIds ++ scheduledJobIds ∧
    (schedulerStop (schedulerStart initialSchedulerState)).registeredJobs = scheduledJobIds :=
  ⟨rfl, rfl, rfl⟩

/-- C7: within a single scheduler tick a failing due job is caught and
logged by the try/except inside its own registered callable, every due job
of the tick still executes (the tick never aborts), every due job has its
next-due time advanced by its interval regardless of success or failure,
and the loop body returns normally so the scheduler continues to the next
tick. -/
theorem c7_tick_failure_isolation (now : ℕ) (jobs : List Job) :
    runPending now jobs =
      Except.ok (jobs.map (advanceIfDue now), dueIds now jobs, tickLogs now jobs) ∧
    runSchedulerTick now jobs = (jobs.map (advanceIfDue now), tickLogs now jobs) ∧
    ∀ j ∈ jobs, j.nextDue ≤ now → ∀ e, j.action = Except.error e →
      ("Error in job " ++ j.id ++ ": " ++ e) ∈ tickLogs now jobs := by
  refine ⟨runPending_eq now jobs, runSchedulerTick_eq now jobs, ?_⟩
  intro j hj hd e he
  unfold tickLogs
  rw [List.mem_flatMap]
  refine ⟨j, ?_, ?_⟩
  · rw [List.mem_filter]
    exact ⟨hj, by simpa using hd⟩
  · rw [he]
    simp

/-- C7 (witness): the tick theorem instantiated on a two-job table whose
first due job fails: the tick executes both jobs, advances both, and logs
the failure. -/
theorem c7_tick_failure_witness :
    runSchedulerTick 0 demoJobs = (demoJobs.map (advanceIfDue 0), tickLogs 0 demoJobs) ∧
    ("Error in job scrape_market_data: http 500") ∈ tickLogs 0 demoJobs := by
  have h := c7_tick_failure_isolation 0 demoJobs
  refine ⟨h.2.1, ?_⟩
  have hj : demoFailingJob ∈ demoJobs := List.mem_cons_self _ _
  have hm := h.2.2 demoFailingJob hj (by norm_num [demoFailingJob]) "http 500" rfl
  simpa [demoFailingJob] using hm

/-- C8: holding all other application attributes fixed, a lower credit
score never produces a strictly lower risk score: the assessed risk score
is antitone in the credit score. -/
theorem c8_credit_score_monotone (app : LoanApplication) (c₁ c₂ : ℤ) (h : c₁ ≤ c₂) :
    (assessLoanRisk { app with credit_score := c₂ }).risk_score ≤
      (assessLoanRisk { app with credit_score := c₁ }).risk_score := by
  rw [assessLoanRisk_score, assessLoanRisk_score]
  unfold specRiskScore
  have hv : loanToValue { app with credit_score := c₂ } =
      loanToValue { app with credit_score := c₁ } := rfl
  have hi : loanToIncome { app with credit_score := c₂ } =
      loanToIncome { app with credit_score := c₁ } := rfl
  rw [hv, hi]
  have hc := specCreditDelta_antitone h
  linarith

/-- C8 (witness): the monotonicity theorem instantiated at credit scores
600 and 800 on the concrete application. -/
theorem c8_credit_score_witness :
    (600:ℤ) ≤ 800 ∧
    (assessLoanRisk { goodApplication with credit_score := 800 }).risk_score ≤
      (assessLoanRisk { goodApplication with credit_score := 600 }).risk_score :=
  ⟨by norm_num, c8_credit_score_monotone goodApplication 600 800 (by norm_num)⟩

/-- C9 (counterexample): at principal 300000, rate 4.5, 30 years, the
returned `total_interest` is 247220.13, not 247221.60 as the claim states
(the claimed figure is the rounded monthly payment times 360 minus the
principal, which the code does not compute). -/
theorem c9_total_interest_counterexample :
    (calculateMortgagePayment 300000 (9/2) 30).total_interest ≠ 2472216/10 := by
  rw [mortgage300k_interest]
  norm_num

/-- C9 (amended): at principal 300000, rate 4.5, 30 years, the calculator
returns `monthly_payment` 1520.06, `total_payment` 547220.13 and
`total_interest` 247220.13, the cent-roundings of the exact closed-form
level-payment values. -/
theorem c9_example_amended :
    (calculateMortgagePayment 300000 (9/2) 30).monthly_payment = 76003/50 ∧
    (calculateMortgagePayment 300000 (9/2) 30).total_payment = 54722013/100 ∧
    (calculateMortgagePayment 300000 (9/2) 30).total_interest = 24722013/100 :=
  ⟨mortgage300k_monthly, mortgage300k_total, mortgage300k_interest⟩

/-- C10: dispatch lower-cases and strips the command name before matching,
so any casing or whitespace-padded variant of a recognized command
dispatches identically to the canonical lowercase name. -/
theorem c10_normalization (sys : Handlers) (params : Params) (c v : String)
    (hc : c ∈ availableCommands) (hv : pyNormalize v = c) :
    processCommand sys v params = processCommand sys c params := by
  unfold processCommand
  rw [hv, normalize_fixed c hc]

/-- C10 (witness): the normalization theorem instantiated at the variant
with surrounding whitespace and upper case of `calculate_mortgage`. -/
theorem c10_normalization_witness :
    "calculate_mortgage" ∈ availableCommands ∧
    pyNormalize "  CALCULATE_MORTGAGE " = "calculate_mortgage" ∧
    processCommand trivialHandlers "  CALCULATE_MORTGAGE " [] =
      processCommand trivialHandlers "calculate_mortgage" [] :=
  ⟨by decide, by decide,
    c10_normalization trivialHandlers [] "calculate_mortgage" "  CALCULATE_MORTGAGE "
      (by decide) (by decide)⟩

end FinSys
